import Mathlib

/-!
Shallow embedding of the consul-k8s acceptance-test core:
the multi-context environment registry
(acceptance/framework/environment/environment.go) and the connect-inject
test flows (the connect test file), together with proofs of the frozen
claims about them.

Go maps are embedded as association lists keyed by `String` (lookup by
key equality, which is all the source uses); Go errors and the
`require.NoError` / `require.Truef` test-abort idiom are embedded as
`Except String`; pointers to lazily cached values are embedded as
`Option` fields.
-/

namespace ConsulK8s

/-! ### String containment (Go strings.Contains) -/

/-- Auxiliary for substring search: `charListLeads sub l` is true when `sub`
occurs at the very start of `l`. -/
def charListLeads : List Char → List Char → Bool
  | [], _ => true
  | _ :: _, [] => false
  | a :: as, b :: bs => a = b && charListLeads as bs

/-- Substring occurrence on character lists: `charListHas sub l` is true when
`sub` occurs contiguously somewhere in `l`. -/
def charListHas (sub : List Char) : List Char → Bool
  | [] => sub.isEmpty
  | b :: bs => charListLeads sub (b :: bs) || charListHas sub bs

/-- Embedding of Go strings.Contains: `strContains s sub` is true when `sub`
occurs as a contiguous substring of `s`. -/
def strContains (s sub : String) : Bool :=
  charListHas sub.data s.data

theorem charListLeads_nil_right (sub : List Char) (h : charListLeads sub [] = true) :
    sub = [] := by
  cases sub with
  | nil => rfl
  | cons a as => simp [charListLeads] at h

theorem charListLeads_append (sub l l2 : List Char) (h : charListLeads sub l = true) :
    charListLeads sub (l ++ l2) = true := by
  induction sub generalizing l with
  | nil => simp [charListLeads]
  | cons a as ih =>
    cases l with
    | nil => simp [charListLeads] at h
    | cons b bs =>
      simp only [charListLeads, Bool.and_eq_true] at h
      simp only [List.cons_append, charListLeads, Bool.and_eq_true]
      exact ⟨h.1, ih bs h.2⟩

theorem charListHas_of_leads (sub l : List Char) (h : charListLeads sub l = true) :
    charListHas sub l = true := by
  cases l with
  | nil =>
    have := charListLeads_nil_right sub h
    simp [charListHas, this, List.isEmpty]
  | cons b bs => simp [charListHas, h]

theorem charListHas_append_right (sub l1 l2 : List Char) (h : charListHas sub l2 = true) :
    charListHas sub (l1 ++ l2) = true := by
  induction l1 with
  | nil => simpa using h
  | cons a t ih =>
    simp only [List.cons_append, charListHas, Bool.or_eq_true]
    exact Or.inr ih

theorem charListHas_append_left (sub l1 l2 : List Char) (h : charListLeads sub l1 = true) :
    charListHas sub (l1 ++ l2) = true := by
  exact charListHas_of_leads sub (l1 ++ l2) (charListLeads_append sub l1 l2 h)

/-! ### Data model of environment.go -/

def DefaultContextName : String := "default"

def SecondaryContextName : String := "secondary"

/-- Embedding of metav1.NamespaceDefault from the Kubernetes API machinery. -/
def NamespaceDefault : String := "default"

/-- One context entry inside a kubeconfig file: the recorded namespace
(api.Context.Namespace; empty when the context declares none). -/
structure KubeContextEntry where
  ns : String
deriving DecidableEq, Repr

/-- The part of a loaded kubeconfig the source reads: the current-context name
and the named context entries (rawConfig.CurrentContext, rawConfig.Contexts). -/
structure RawConfig where
  currentContext : String
  contexts : List (String × KubeContextEntry)
deriving DecidableEq, Repr

/-- The file system visible to the test: kubeconfig files by path, plus the
fallback kubeconfig location terratest uses when options carry no path. -/
structure FileSystem where
  files : List (String × RawConfig)
  homeKubeConfigPath : String
deriving DecidableEq, Repr

/-- Embedding of k8s.LoadConfigFromPath(path).RawConfig(): loading fails when
no file is present at the path. -/
def loadRawConfig (fs : FileSystem) (path : String) : Except String RawConfig :=
  match fs.files.lookup path with
  | some cfg => .ok cfg
  | none => .error ("could not load config from " ++ path)

/-- Embedding of terratest k8s.KubectlOptions: the three fields the source
reads and writes (ContextName, ConfigPath, Namespace). -/
structure KubectlOptions where
  contextName : String
  configPath : String
  ns : String
deriving DecidableEq, Repr

/-- Embedding of terratest options.GetConfigPath: the ConfigPath when set,
otherwise the well-known kubeconfig location. -/
def getConfigPath (fs : FileSystem) (o : KubectlOptions) : String :=
  if o.configPath ≠ "" then o.configPath else fs.homeKubeConfigPath

/-- Embedding of the client handle built by KubernetesClientFromOptions:
kubernetes.NewForConfig over k8s.LoadApiClientConfigE(configPath, contextName);
the handle is determined by the pair it was loaded from. -/
structure ClientHandle where
  configPath : String
  contextName : String
deriving DecidableEq, Repr

/-- Embedding of the kubernetesContext struct: connection parameters plus the
two lazily cached fields (nil pointers become `none`). -/
structure kubernetesContext where
  pathToKubeConfig : String
  kubeContextName : String
  ns : String
  client : Option ClientHandle
  options : Option KubectlOptions
deriving DecidableEq, Repr

/-- Embedding of NewContext: cache fields start out nil. -/
def NewContext (ns pathToKubeConfig kubeContextName : String) : kubernetesContext :=
  { ns := ns
    pathToKubeConfig := pathToKubeConfig
    kubeContextName := kubeContextName
    client := none
    options := none }

/-- Embedding of KubernetesContextFromOptions: the explicit ContextName when
non-empty, otherwise the current-context of the config file loaded from the
options' config path. -/
def KubernetesContextFromOptions (fs : FileSystem) (options : KubectlOptions) :
    Except String String :=
  if options.contextName ≠ "" then
    .ok options.contextName
  else
    match loadRawConfig fs (getConfigPath fs options) with
    | .error e => .error e
    | .ok cfg => .ok cfg.currentContext

/-- Body of the KubectlOptions method, acting on the receiver it is handed:
returns the computed options together with the receiver as the body leaves it
(cache field written). In Go the receiver is a VALUE receiver
(func (k kubernetesContext) KubectlOptions), so the returned receiver is a
local copy; see `callKubectlOptions` for the call semantics. Indexing
rawConfig.Contexts (a map of pointers) at a missing key yields a nil pointer
whose field access faults, embedded as an error outcome. -/
def kubectlOptionsBody (k : kubernetesContext) (fs : FileSystem) :
    Except String (KubectlOptions × kubernetesContext) :=
  match k.options with
  | some o => .ok (o, k)
  | none =>
    let opts : KubectlOptions :=
      { contextName := k.kubeContextName
        configPath := k.pathToKubeConfig
        ns := k.ns }
    if k.ns = "" then
      match loadRawConfig fs (getConfigPath fs opts) with
      | .error e => .error e
      | .ok rawConfig =>
        match KubernetesContextFromOptions fs opts with
        | .error e => .error e
        | .ok contextName =>
          match rawConfig.contexts.lookup contextName with
          | none => .error ("nil context entry for " ++ contextName)
          | some entry =>
            let resolved := if entry.ns ≠ "" then entry.ns else NamespaceDefault
            let opts2 := { opts with ns := resolved }
            .ok (opts2, { k with options := some opts2 })
    else
      .ok (opts, { k with options := some opts })

/-- Call semantics of ctx.KubectlOptions(t) through the stored context: the Go
method has a value receiver, so the body runs on a copy and the caller's
stored context is returned UNCHANGED; only the result escapes. -/
def callKubectlOptions (k : kubernetesContext) (fs : FileSystem) :
    Except String KubectlOptions × kubernetesContext :=
  ((kubectlOptionsBody k fs).map Prod.fst, k)

/-- Embedding of KubernetesClientFromOptions: loads the api client config at
the options' config path for the options' context name and builds a client
from it; a missing file is a fatal error. -/
def KubernetesClientFromOptions (fs : FileSystem) (options : KubectlOptions) :
    Except String ClientHandle :=
  let configPath := getConfigPath fs options
  match fs.files.lookup configPath with
  | none => .error ("could not load api client config from " ++ configPath)
  | some _ => .ok { configPath := configPath, contextName := options.contextName }

/-- Body of the KubernetesClient method on the receiver it is handed: returns
the cached client when present, otherwise resolves options (itself a value
call on the receiver copy) and builds the client, writing the cache field of
the copy. -/
def kubernetesClientBody (k : kubernetesContext) (fs : FileSystem) :
    Except String (ClientHandle × kubernetesContext) :=
  match k.client with
  | some c => .ok (c, k)
  | none =>
    match (kubectlOptionsBody k fs).map Prod.fst with
    | .error e => .error e
    | .ok opts =>
      match KubernetesClientFromOptions fs opts with
      | .error e => .error e
      | .ok c => .ok (c, { k with client := some c })

/-- Call semantics of ctx.KubernetesClient(t): value receiver, so the caller's
stored context is returned unchanged; only the result escapes. -/
def callKubernetesClient (k : kubernetesContext) (fs : FileSystem) :
    Except String ClientHandle × kubernetesContext :=
  ((kubernetesClientBody k fs).map Prod.fst, k)

/-- The fields of config.TestConfig that environment.go reads. -/
structure TestConfig where
  kubeNamespace : String
  kubeconfig : String
  kubeContext : String
  enableMultiCluster : Bool
  secondaryKubeNamespace : String
  secondaryKubeconfig : String
  secondaryKubeContext : String
deriving DecidableEq, Repr

/-- Embedding of the KubernetesEnvironment struct: the contexts map as an
association list (construction inserts at most the two distinct keys
"default" and "secondary"). -/
structure KubernetesEnvironment where
  contexts : List (String × kubernetesContext)
deriving DecidableEq, Repr

/-- Embedding of NewKubernetesEnvironmentFromConfig: a default entry always,
and a secondary entry exactly when multi-cluster tests are enabled. -/
def NewKubernetesEnvironmentFromConfig (config : TestConfig) : KubernetesEnvironment :=
  let defaultContext := NewContext config.kubeNamespace config.kubeconfig config.kubeContext
  { contexts :=
      if config.enableMultiCluster then
        [(DefaultContextName, defaultContext),
         (SecondaryContextName,
          NewContext config.secondaryKubeNamespace config.secondaryKubeconfig
            config.secondaryKubeContext)]
      else
        [(DefaultContextName, defaultContext)] }

/-- Embedding of NewKubernetesEnvironmentFromContext: only the default entry. -/
def NewKubernetesEnvironmentFromContext (context : kubernetesContext) :
    KubernetesEnvironment :=
  { contexts := [(DefaultContextName, context)] }

/-- Embedding of KubernetesEnvironment.Context: the named context, or the
require.Truef test failure with the formatted message. -/
def KubernetesEnvironment.Context (k : KubernetesEnvironment) (name : String) :
    Except String kubernetesContext :=
  match k.contexts.lookup name with
  | some ctx => .ok ctx
  | none => .error ("requested context " ++ name ++ " not found")

/-- Embedding of KubernetesEnvironment.DefaultContext: the default entry, or
the require.Truef test failure. -/
def KubernetesEnvironment.DefaultContext (k : KubernetesEnvironment) :
    Except String kubernetesContext :=
  match k.contexts.lookup DefaultContextName with
  | some ctx => .ok ctx
  | none => .error "default context not found"

/-! ### Data model of the connect-inject test file -/

/-- Embedding of strconv.FormatBool. -/
def fmtBool (b : Bool) : String := if b then "true" else "false"

/-- The helm-value override map built by TestConnectInject_CleanupKilledPods
before invoking the topology generator (consul.NewHelmCluster). -/
def cleanupHelmValues (secure autoEncrypt : Bool) : List (String × String) :=
  [("connectInject.enabled", "true"),
   ("global.tls.enabled", fmtBool secure),
   ("global.tls.enableAutoEncrypt", fmtBool autoEncrypt),
   ("global.acls.manageSystemACLs", fmtBool secure)]

/-- One registered service instance as the catalog query returns it; the
source only reads ServiceID. -/
structure ServiceInstance where
  serviceID : String
deriving DecidableEq, Repr

/-- Outcome of consulClient.Catalog().Service(name, "", nil): either a lookup
error or the list of registered instances. -/
abbrev CatalogQuery := String → Except String (List ServiceInstance)

/-- The two service names both convergence checks iterate over. -/
def connectServices : List String := ["static-client", "static-client-sidecar-proxy"]

/-- One attempt of the registration convergence check: for each service name,
query the catalog; r.Check(err) aborts the attempt recording the error as its
failure, and r.Errorf records a failure (continuing) when the instance count
differs from 1. The attempt's recorded failures are returned. -/
def regCheckAttempt (q : CatalogQuery) : List String → List String
  | [] => []
  | name :: rest =>
    match q name with
    | .error e => [e]
    | .ok instances =>
      (if instances.length ≠ 1 then ["expected 1 instance of " ++ name] else []) ++
        regCheckAttempt q rest

/-- One attempt of the deregistration convergence check: for each service
name, query the catalog (r.Check aborts the attempt on error); every returned
instance whose ServiceID contains the killed pod's name is recorded as a
failure via r.Errorf. -/
def deregCheckAttempt (q : CatalogQuery) (podName : String) : List String → List String
  | [] => []
  | name :: rest =>
    match q name with
    | .error e => [e]
    | .ok instances =>
      (instances.filterMap fun inst =>
        if strContains inst.serviceID podName then
          some (inst.serviceID ++ " is still registered")
        else none) ++
        deregCheckAttempt q podName rest

/-- Auxiliary recursion for `retryRun`: remaining fuel and current attempt
index. -/
def retryRunFrom (attempt : Nat → List String) : Nat → Nat → Bool
  | 0, _ => false
  | fuel + 1, i => if attempt i = [] then true else retryRunFrom attempt fuel (i + 1)

/-- Modelled from the spec: retry.Run, the convergence poller (from the consul
sdk testutil, not among this repository's sources). It repeatedly executes the
check closure, each attempt recording zero or more failures; polling stops
successfully at the first attempt that records no failures, and the test fails
only when the bounded attempt budget exhausts with outstanding failures. -/
def retryRun (budget : Nat) (attempt : Nat → List String) : Bool :=
  retryRunFrom attempt budget 0

/-- Events of a test-case run, in the order the test body emits them. -/
inductive TestEvent where
  | installCall
  | installOk
  | verifyCall
  | verifyOk
  | clusterGen (helmValues : List (String × String))
  | clusterCreate
  | deployClient
  | regPollStart
  | regConfirmed
  | podDelete (podName : String) (gracePeriodSeconds : Int)
  | deregPollStart
  | deregConfirmed
  | testFailed (msg : String)
deriving DecidableEq, Repr

/-- Trace of one sub-case of TestConnectInject: connHelper.Install is called,
its error checked by require.NoError (aborting the sub-case on failure), and
only then is connHelper.TestInstallation (the verification) called and its
error checked. The outcomes of the two external calls parameterize the
trace. -/
def testConnectInjectCase (installResult verifyResult : Except String Unit) :
    List TestEvent :=
  TestEvent.installCall ::
    match installResult with
    | .error e => [TestEvent.testFailed e]
    | .ok _ =>
      TestEvent.installOk :: TestEvent.verifyCall ::
        match verifyResult with
        | .error e => [TestEvent.testFailed e]
        | .ok _ => [TestEvent.verifyOk]

/-- Outcomes of the external calls made by one sub-case of
TestConnectInject_CleanupKilledPods: cluster creation, fixture deployment, the
catalog state seen by each attempt of the two polls, the pod listing, and the
forced deletion. -/
structure CleanupWorld where
  createOk : Bool
  deployOk : Bool
  regQuery : Nat → CatalogQuery
  regBudget : Nat
  listPodsOk : Bool
  pods : List String
  deleteOk : Bool
  deregQuery : Nat → CatalogQuery
  deregBudget : Nat

/-- Trace of one sub-case of TestConnectInject_CleanupKilledPods: build the
helm values and hand them to the topology generator, create the cluster,
deploy the static-client fixture, poll until both services have exactly one
registered instance, list the pods labelled app=static-client requiring
exactly one, force-delete that pod with a zero grace period, and poll until no
instance of either service has a ServiceID containing the pod's name. Every
require failure or exhausted poll aborts the sub-case. -/
def testCleanupKilledPods (secure autoEncrypt : Bool) (w : CleanupWorld) :
    List TestEvent :=
  TestEvent.clusterGen (cleanupHelmValues secure autoEncrypt) ::
  TestEvent.clusterCreate ::
  if w.createOk then
    TestEvent.deployClient ::
    if w.deployOk then
      TestEvent.regPollStart ::
      if retryRun w.regBudget (fun a => regCheckAttempt (w.regQuery a) connectServices) then
        TestEvent.regConfirmed ::
        if w.listPodsOk then
          match w.pods with
          | [podName] =>
            TestEvent.podDelete podName 0 ::
            if w.deleteOk then
              TestEvent.deregPollStart ::
              if retryRun w.deregBudget
                  (fun a => deregCheckAttempt (w.deregQuery a) podName connectServices) then
                [TestEvent.deregConfirmed]
              else
                [TestEvent.testFailed "deregistration check exhausted retries"]
            else
              [TestEvent.testFailed "pod delete failed"]
          | _ => [TestEvent.testFailed "expected 1 static-client pod"]
        else
          [TestEvent.testFailed "listing pods failed"]
      else
        [TestEvent.testFailed "registration check exhausted retries"]
    else
      [TestEvent.testFailed "deploy failed"]
  else
    [TestEvent.testFailed "cluster create failed"]

/-! ### Sample values used by witnesses and counterexamples -/

/-- An environment with no registered contexts at all. -/
def emptyEnv : KubernetesEnvironment := { contexts := [] }

/-- A sample pre-built context handed to NewKubernetesEnvironmentFromContext. -/
def sampleContext : kubernetesContext := NewContext "ns1" "/kube/config" "ctx1"

/-- A sample test configuration with multi-cluster mode enabled. -/
def multiClusterConfig : TestConfig :=
  { kubeNamespace := ""
    kubeconfig := "/kube/config"
    kubeContext := "ctx1"
    enableMultiCluster := true
    secondaryKubeNamespace := ""
    secondaryKubeconfig := "/kube/config2"
    secondaryKubeContext := "ctx2" }

/-- A sample kubeconfig: current-context is cur, which declares namespace
teamA; context bare declares no namespace. -/
def sampleRawConfig : RawConfig :=
  { currentContext := "cur"
    contexts := [("cur", { ns := "teamA" }), ("bare", { ns := "" })] }

/-- A sample file system holding `sampleRawConfig` at /kube/config. -/
def sampleFs : FileSystem :=
  { files := [("/kube/config", sampleRawConfig)]
    homeKubeConfigPath := "/home/user/.kube/config" }

/-- Options with an explicit context name. -/
def optsExplicit : KubectlOptions :=
  { contextName := "explicit", configPath := "/kube/config", ns := "" }

/-- Options without an explicit context name. -/
def optsEmpty : KubectlOptions :=
  { contextName := "", configPath := "/kube/config", ns := "" }

/-! ### Claim theorems: environment registry -/

/-- C2 counterexample: the claim asserts the secondary entry exists iff
multi-cluster mode is enabled for environments from EITHER construction
variant, but an environment built by NewKubernetesEnvironmentFromContext has
no secondary entry even while the configuration enables multi-cluster mode. -/
theorem C2_counterexample :
    multiClusterConfig.enableMultiCluster = true ∧
    (NewKubernetesEnvironmentFromContext sampleContext).contexts.lookup
      SecondaryContextName = none := by
  decide

/-- C2 amended: an environment from NewKubernetesEnvironmentFromConfig always
has a default entry and has a secondary entry exactly when the configuration
enables multi-cluster mode; an environment from
NewKubernetesEnvironmentFromContext consists of exactly the default entry
regardless of the configuration. Both accessors are pure reads, so the map is
not mutated after construction. -/
theorem C2_registry_entries (config : TestConfig) (context : kubernetesContext) :
    ((NewKubernetesEnvironmentFromConfig config).contexts.lookup
        DefaultContextName).isSome = true ∧
    ((NewKubernetesEnvironmentFromConfig config).contexts.lookup
        SecondaryContextName).isSome = config.enableMultiCluster ∧
    (NewKubernetesEnvironmentFromContext context).contexts =
      [(DefaultContextName, context)] := by
  refine ⟨?_, ?_, rfl⟩ <;>
    cases h : config.enableMultiCluster <;>
      simp [NewKubernetesEnvironmentFromConfig, h, List.lookup, DefaultContextName,
        SecondaryContextName]

/-- C3: requesting an unregistered context name fails the test with an error
message containing both "requested context" and "not found" (and no other
outcome: the error is returned, not a panic and not a silently produced zero
context), and DefaultContext fails with a "not found" message when the default
entry is absent. -/
theorem C3_unregistered_context_fails (env : KubernetesEnvironment) (name : String)
    (h : env.contexts.lookup name = none) :
    (env.Context name = .error ("requested context " ++ name ++ " not found") ∧
      strContains ("requested context " ++ name ++ " not found")
        "requested context" = true ∧
      strContains ("requested context " ++ name ++ " not found") "not found" = true) ∧
    (env.contexts.lookup DefaultContextName = none →
      env.DefaultContext = .error "default context not found" ∧
      strContains "default context not found" "not found" = true) := by
  refine ⟨⟨?_, ?_, ?_⟩, ?_⟩
  · simp [KubernetesEnvironment.Context, h]
  · show charListHas _ _ = true
    have hdata : ("requested context " ++ name ++ " not found").data =
        "requested context ".data ++ (name.data ++ " not found".data) := by
      simp [String.data_append]
    rw [hdata]
    exact charListHas_append_left _ _ _ (by decide)
  · show charListHas _ _ = true
    have hdata : ("requested context " ++ name ++ " not found").data =
        ("requested context ".data ++ name.data) ++ " not found".data := by
      simp [String.data_append]
    rw [hdata]
    exact charListHas_append_right _ _ _ (by decide)
  · intro hd
    exact ⟨by simp [KubernetesEnvironment.DefaultContext, hd], by decide⟩

/-- C3 witness: on an empty environment, requesting the context nonexistent
produces the formatted not-found failure, and DefaultContext fails too. -/
theorem C3_unregistered_context_fails_witness :
    (emptyEnv.Context "nonexistent" =
        .error ("requested context " ++ "nonexistent" ++ " not found") ∧
      strContains ("requested context " ++ "nonexistent" ++ " not found")
        "requested context" = true ∧
      strContains ("requested context " ++ "nonexistent" ++ " not found")
        "not found" = true) ∧
    (emptyEnv.DefaultContext = .error "default context not found" ∧
      strContains "default context not found" "not found" = true) :=
  ⟨(C3_unregistered_context_fails emptyEnv "nonexistent" rfl).1,
   (C3_unregistered_context_fails emptyEnv "nonexistent" rfl).2 rfl⟩

/-- C5: KubernetesContextFromOptions returns the options' ContextName whenever
it is non-empty, and otherwise returns the current-context of the config file
loaded from the options' config path. -/
theorem C5_context_from_options (fs : FileSystem) (options : KubectlOptions)
    (cfg : RawConfig)
    (hload : loadRawConfig fs (getConfigPath fs options) = .ok cfg) :
    (options.contextName ≠ "" →
      KubernetesContextFromOptions fs options = .ok options.contextName) ∧
    (options.contextName = "" →
      KubernetesContextFromOptions fs options = .ok cfg.currentContext) := by
  constructor
  · intro h
    simp [KubernetesContextFromOptions, h]
  · intro h
    simp only [KubernetesContextFromOptions, h, ne_eq, not_true_eq_false, if_false,
      ite_false, hload]

/-- C5 witness: with an explicit context name the name itself is returned;
without one the sample file's current-context cur is returned. -/
theorem C5_context_from_options_witness :
    KubernetesContextFromOptions sampleFs optsExplicit = .ok "explicit" ∧
    KubernetesContextFromOptions sampleFs optsEmpty = .ok "cur" :=
  ⟨(C5_context_from_options sampleFs optsExplicit sampleRawConfig rfl).1
      (by decide),
   (C5_context_from_options sampleFs optsEmpty sampleRawConfig rfl).2 rfl⟩

/-- C10: an environment built from a single pre-built context registers
exactly that context under the default name, so requesting the secondary
context fails with the requested-context-not-found error no matter what the
global configuration (multi-cluster included) says, the construction not
consulting any configuration at all. -/
theorem C10_from_context_only_default (context : kubernetesContext) :
    (NewKubernetesEnvironmentFromContext context).contexts =
      [(DefaultContextName, context)] ∧
    (NewKubernetesEnvironmentFromContext context).Context SecondaryContextName =
      .error ("requested context " ++ SecondaryContextName ++ " not found") ∧
    strContains ("requested context " ++ SecondaryContextName ++ " not found")
      "not found" = true := by
  refine ⟨rfl, ?_, by decide⟩
  rfl

/-! ### Claim theorems: connect-inject test flows -/

/-- C8: for every combination of the secure and autoEncrypt flags, the
override map handed to the topology generator by the cleanup-killed-pods test
maps connectInject.enabled to true, global.tls.enabled and
global.acls.manageSystemACLs to the string form of secure, and
global.tls.enableAutoEncrypt to the string form of autoEncrypt. -/
theorem C8_helm_values (secure autoEncrypt : Bool) (w : CleanupWorld) :
    (∃ rest, testCleanupKilledPods secure autoEncrypt w =
        TestEvent.clusterGen (cleanupHelmValues secure autoEncrypt) :: rest) ∧
    (cleanupHelmValues secure autoEncrypt).lookup "connectInject.enabled" =
      some "true" ∧
    (cleanupHelmValues secure autoEncrypt).lookup "global.tls.enabled" =
      some (fmtBool secure) ∧
    (cleanupHelmValues secure autoEncrypt).lookup "global.acls.manageSystemACLs" =
      some (fmtBool secure) ∧
    (cleanupHelmValues secure autoEncrypt).lookup "global.tls.enableAutoEncrypt" =
      some (fmtBool autoEncrypt) := by
  refine ⟨⟨_, rfl⟩, ?_, ?_, ?_, ?_⟩ <;> cases secure <;> cases autoEncrypt <;> decide

/-! ### Poller lemmas -/

theorem retryRunFrom_eq_true_iff (attempt : Nat → List String) (fuel start : Nat) :
    retryRunFrom attempt fuel start = true ↔
      ∃ j, j < fuel ∧ attempt (start + j) = [] := by
  induction fuel generalizing start with
  | zero => simp [retryRunFrom]
  | succ n ih =>
    simp only [retryRunFrom]
    by_cases h : attempt start = []
    · constructor
      · intro _
        exact ⟨0, Nat.succ_pos n, by simpa using h⟩
      · intro _
        rw [if_pos h]
    · rw [if_neg h, ih (start + 1)]
      constructor
      · rintro ⟨j, hj, hja⟩
        refine ⟨j + 1, by omega, ?_⟩
        rw [show start + (j + 1) = start + 1 + j by omega]
        exact hja
      · rintro ⟨j, hj, hja⟩
        cases j with
        | zero => exact absurd (by simpa using hja) h
        | succ j =>
          refine ⟨j, by omega, ?_⟩
          rw [show start + 1 + j = start + (j + 1) by omega]
          exact hja

theorem retryRun_eq_true_iff (budget : Nat) (attempt : Nat → List String) :
    retryRun budget attempt = true ↔ ∃ j, j < budget ∧ attempt j = [] := by
  rw [retryRun, retryRunFrom_eq_true_iff]
  simp

theorem regCheckAttempt_ne_nil_of_error (q : CatalogQuery) (names : List String)
    (name e : String) (hmem : name ∈ names) (herr : q name = .error e) :
    regCheckAttempt q names ≠ [] := by
  induction names with
  | nil => simp at hmem
  | cons a rest ih =>
    simp only [regCheckAttempt]
    rcases List.mem_cons.mp hmem with rfl | hmem2
    · rw [herr]
      simp
    · cases hq : q a with
      | error e2 => simp
      | ok instances =>
        intro hcontra
        exact ih hmem2 (List.append_eq_nil.mp hcontra).2

theorem regCheckAttempt_eq_nil_iff (q : CatalogQuery) (names : List String) :
    regCheckAttempt q names = [] ↔
      ∀ name ∈ names, ∃ instances, q name = .ok instances ∧ instances.length = 1 := by
  induction names with
  | nil => simp [regCheckAttempt]
  | cons a rest ih =>
    simp only [regCheckAttempt, List.mem_cons]
    cases hq : q a with
    | error e =>
      simp only [List.cons_ne_nil, false_iff]
      intro hall
      obtain ⟨instances, hinst, _⟩ := hall a (Or.inl rfl)
      rw [hq] at hinst
      exact Except.noConfusion hinst
    | ok instances =>
      rw [List.append_eq_nil]
      constructor
      · rintro ⟨h1, h2⟩ name hname
        rcases hname with rfl | hname
        · refine ⟨instances, hq, ?_⟩
          by_contra hlen
          simp [hlen] at h1
        · exact ih.mp h2 name hname
      · intro hall
        obtain ⟨i1, hi1, hlen1⟩ := hall a (Or.inl rfl)
        rw [hq] at hi1
        injection hi1 with hi1
        subst hi1
        refine ⟨by simp [hlen1], ih.mpr fun name hname => hall name (Or.inr hname)⟩

theorem deregCheckAttempt_eq_nil_iff (q : CatalogQuery) (podName : String)
    (names : List String) :
    deregCheckAttempt q podName names = [] ↔
      ∀ name ∈ names, ∃ instances, q name = .ok instances ∧
        ∀ inst ∈ instances, strContains inst.serviceID podName = false := by
  induction names with
  | nil => simp [deregCheckAttempt]
  | cons a rest ih =>
    simp only [deregCheckAttempt, List.mem_cons]
    cases hq : q a with
    | error e =>
      simp only [List.cons_ne_nil, false_iff]
      intro hall
      obtain ⟨instances, hinst, _⟩ := hall a (Or.inl rfl)
      rw [hq] at hinst
      exact Except.noConfusion hinst
    | ok instances =>
      rw [List.append_eq_nil, List.filterMap_eq_nil_iff]
      constructor
      · rintro ⟨h1, h2⟩ name hname
        rcases hname with rfl | hname
        · refine ⟨instances, hq, fun inst hinst => ?_⟩
          have := h1 inst hinst
          by_contra hcontra
          simp only [Bool.not_eq_false] at hcontra
          simp [hcontra] at this
        · exact ih.mp h2 name hname
      · intro hall
        obtain ⟨i1, hi1, hnone⟩ := hall a (Or.inl rfl)
        rw [hq] at hi1
        injection hi1 with hi1
        subst hi1
        refine ⟨fun inst hinst => ?_, ih.mpr fun name hname => hall name (Or.inr hname)⟩
        simp [hnone inst hinst]

/-! ### Claim theorems: convergence error policy -/

/-- C7: during a poll, a transient catalog lookup error makes that attempt
record a failure (so the attempt is retried while budget remains) rather than
failing the test outright: whenever any later attempt within the budget is
clean the poll succeeds, and the poll reports failure exactly when every
attempt in the budget recorded failures. -/
theorem C7_transient_error_retryable (budget : Nat) (queries : Nat → CatalogQuery)
    (i : Nat) (name e : String) (hmem : name ∈ connectServices)
    (herr : queries i name = .error e) :
    regCheckAttempt (queries i) connectServices ≠ [] ∧
    ((∃ j, j < budget ∧ regCheckAttempt (queries j) connectServices = []) →
      retryRun budget (fun a => regCheckAttempt (queries a) connectServices) = true) ∧
    (retryRun budget (fun a => regCheckAttempt (queries a) connectServices) = false ↔
      ∀ j, j < budget → regCheckAttempt (queries j) connectServices ≠ []) := by
  refine ⟨regCheckAttempt_ne_nil_of_error _ _ name e hmem herr, ?_, ?_, ?_⟩
  · intro hex
    exact (retryRun_eq_true_iff _ _).mpr hex
  · intro hfalse j hj hnil
    have htrue := (retryRun_eq_true_iff budget
      (fun a => regCheckAttempt (queries a) connectServices)).mpr ⟨j, hj, hnil⟩
    rw [hfalse] at htrue
    exact Bool.noConfusion htrue
  · intro hall
    cases hb : retryRun budget (fun a => regCheckAttempt (queries a) connectServices) with
    | false => rfl
    | true =>
      obtain ⟨j, hj, hnil⟩ := (retryRun_eq_true_iff _ _).mp hb
      exact absurd hnil (hall j hj)

/-- Catalog outcomes for the C7 witness: the first attempt sees a transient
lookup error, every later attempt sees exactly one instance per service. -/
def c7Queries : Nat → CatalogQuery := fun a name =>
  if a = 0 then .error "lookup failed"
  else .ok [{ serviceID := name ++ "-pod1" }]

/-- C7 witness: with the first attempt erroring and the second clean, the
attempt records a failure yet the three-attempt poll succeeds. -/
theorem C7_transient_error_retryable_witness :
    regCheckAttempt (c7Queries 0) connectServices ≠ [] ∧
    retryRun 3 (fun a => regCheckAttempt (c7Queries a) connectServices) = true :=
  ⟨(C7_transient_error_retryable 3 c7Queries 0 "static-client" "lookup failed"
      (by decide) rfl).1,
   (C7_transient_error_retryable 3 c7Queries 0 "static-client" "lookup failed"
      (by decide) rfl).2.1 ⟨1, by omega, by decide⟩⟩

/-! ### Claim theorems: context caching and namespace resolution -/

/-- A lazily-resolving context (empty namespace, no explicit context name). -/
def c1Ctx : kubernetesContext := NewContext "" "/kube/config" ""

/-- The backing config file as first read: current-context ctx1 declares
namespace ns1. -/
def c1Fs1 : FileSystem :=
  { files := [("/kube/config",
      { currentContext := "ctx1", contexts := [("ctx1", { ns := "ns1" })] })]
    homeKubeConfigPath := "/home/user/.kube/config" }

/-- The same config file after a mid-test edit: ctx1 now declares ns2. -/
def c1Fs2 : FileSystem :=
  { files := [("/kube/config",
      { currentContext := "ctx1", contexts := [("ctx1", { ns := "ns2" })] })]
    homeKubeConfigPath := "/home/user/.kube/config" }

/-- C1 evaluated at the failing input: the method body does compute the
options and write them into its receiver, but the receiver is a Go VALUE
receiver, so the caller's stored context comes back unchanged with both cache
fields still nil; a second call therefore re-resolves from the config file and,
after the file changed mid-test, returns different options (ns1 versus ns2)
instead of the cached first value. The client accessor drops its cache the
same way. -/
theorem C1_value_receiver_drops_cache :
    ((kubectlOptionsBody c1Ctx c1Fs1).toOption.map fun p => p.2.options) =
      some (some { contextName := "", configPath := "/kube/config", ns := "ns1" }) ∧
    (callKubectlOptions c1Ctx c1Fs1).2 = c1Ctx ∧
    c1Ctx.options = none ∧
    c1Ctx.client = none ∧
    (callKubectlOptions c1Ctx c1Fs1).1.toOption =
      some { contextName := "", configPath := "/kube/config", ns := "ns1" } ∧
    (callKubectlOptions ((callKubectlOptions c1Ctx c1Fs1).2) c1Fs2).1.toOption =
      some { contextName := "", configPath := "/kube/config", ns := "ns2" } ∧
    (callKubectlOptions c1Ctx c1Fs1).1.toOption ≠
      (callKubectlOptions ((callKubectlOptions c1Ctx c1Fs1).2) c1Fs2).1.toOption ∧
    ((kubernetesClientBody c1Ctx c1Fs1).toOption.map fun p => p.2.client) =
      some (some { configPath := "/kube/config", contextName := "" }) ∧
    (callKubernetesClient c1Ctx c1Fs1).2 = c1Ctx := by
  decide

/-- C4: for a context whose stored namespace is empty, KubectlOptions loads
the config file at the stored path, takes the active context (the explicit
context name when set, else the file's current-context), and returns options
carrying that context's recorded namespace when non-empty and the platform
default namespace otherwise; a non-empty stored namespace is used as-is. -/
theorem C4_namespace_resolution (k : kubernetesContext) (fs : FileSystem)
    (cfg : RawConfig) (entry : KubeContextEntry)
    (hfresh : k.options = none)
    (hpath : k.pathToKubeConfig ≠ "")
    (hload : fs.files.lookup k.pathToKubeConfig = some cfg)
    (hentry : cfg.contexts.lookup
        (if k.kubeContextName ≠ "" then k.kubeContextName else cfg.currentContext) =
      some entry) :
    (k.ns = "" →
      (callKubectlOptions k fs).1 = .ok
        { contextName := k.kubeContextName
          configPath := k.pathToKubeConfig
          ns := if entry.ns ≠ "" then entry.ns else NamespaceDefault }) ∧
    (k.ns ≠ "" →
      (callKubectlOptions k fs).1 = .ok
        { contextName := k.kubeContextName
          configPath := k.pathToKubeConfig
          ns := k.ns }) := by
  obtain ⟨path, cn, nsv, cl, opt⟩ := k
  subst hfresh
  constructor
  · intro hns
    subst hns
    by_cases hcn : cn = ""
    · subst hcn
      simp only [ne_eq, not_true_eq_false, if_false, ite_false] at hentry
      simp [callKubectlOptions, kubectlOptionsBody, getConfigPath, loadRawConfig,
        KubernetesContextFromOptions, hpath, hload, hentry, Except.map]
    · simp only [ne_eq, hcn, not_false_eq_true, if_true, ite_true] at hentry
      simp [callKubectlOptions, kubectlOptionsBody, getConfigPath, loadRawConfig,
        KubernetesContextFromOptions, hpath, hcn, hload, hentry, Except.map]
  · intro hns
    simp [callKubectlOptions, kubectlOptionsBody, hns, Except.map]

/-- A context relying on the declared namespace of its explicit context. -/
def ctxTeamA : kubernetesContext := NewContext "" "/kube/config" "cur"

/-- A context whose explicit context declares no namespace. -/
def ctxBare : kubernetesContext := NewContext "" "/kube/config" "bare"

/-- A context with an explicitly stored namespace. -/
def ctxMyNs : kubernetesContext := NewContext "myns" "/kube/config" "cur"

/-- C4 witness: against the sample kubeconfig, the context pointing at cur
resolves to its declared namespace teamA, the context pointing at bare falls
back to the platform default namespace, and a stored namespace myns is used
as-is. -/
theorem C4_namespace_resolution_witness :
    (callKubectlOptions ctxTeamA sampleFs).1 = .ok
      { contextName := "cur", configPath := "/kube/config", ns := "teamA" } ∧
    (callKubectlOptions ctxBare sampleFs).1 = .ok
      { contextName := "bare", configPath := "/kube/config", ns := "default" } ∧
    (callKubectlOptions ctxMyNs sampleFs).1 = .ok
      { contextName := "cur", configPath := "/kube/config", ns := "myns" } :=
  ⟨(C4_namespace_resolution ctxTeamA sampleFs sampleRawConfig { ns := "teamA" }
      rfl (by decide) rfl (by decide)).1 rfl,
   (C4_namespace_resolution ctxBare sampleFs sampleRawConfig { ns := "" }
      rfl (by decide) rfl (by decide)).1 rfl,
   (C4_namespace_resolution ctxMyNs sampleFs sampleRawConfig { ns := "teamA" }
      rfl (by decide) rfl (by decide)).2 (by decide)⟩

/-! ### Trace analysis of the cleanup-killed-pods sub-case -/

theorem cleanup_pod_delete_mem (secure autoEncrypt : Bool) (w : CleanupWorld)
    (p : String) (g : Int)
    (h : TestEvent.podDelete p g ∈ testCleanupKilledPods secure autoEncrypt w) :
    w.createOk = true ∧ w.deployOk = true ∧
    retryRun w.regBudget (fun a => regCheckAttempt (w.regQuery a) connectServices) = true ∧
    w.listPodsOk = true ∧ w.pods = [p] ∧ g = 0 := by
  unfold testCleanupKilledPods at h
  by_cases h1 : w.createOk = true
  case neg =>
    rw [if_neg h1] at h
    simp at h
  rw [if_pos h1] at h
  by_cases h2 : w.deployOk = true
  case neg =>
    rw [if_neg h2] at h
    simp at h
  rw [if_pos h2] at h
  by_cases h3 : retryRun w.regBudget
      (fun a => regCheckAttempt (w.regQuery a) connectServices) = true
  case neg =>
    rw [if_neg h3] at h
    simp at h
  rw [if_pos h3] at h
  by_cases h4 : w.listPodsOk = true
  case neg =>
    rw [if_neg h4] at h
    simp at h
  rw [if_pos h4] at h
  match hp : w.pods with
  | [] =>
    rw [hp] at h
    simp at h
  | [podName] =>
    rw [hp] at h
    simp only [List.mem_cons] at h
    rcases h with h | h | h | h | h | h | h
    · exact absurd h (by simp)
    · exact absurd h (by simp)
    · exact absurd h (by simp)
    · exact absurd h (by simp)
    · exact absurd h (by simp)
    · injection h with hn hg
      subst hn
      exact ⟨h1, h2, h3, h4, rfl, hg⟩
    · exfalso
      split at h
      · split at h
        · simp at h
        · simp at h
      · simp at h
  | pn1 :: pn2 :: rest =>
    rw [hp] at h
    simp at h

/-! ### Claim theorems: test-case ordering and the cleanup scenario -/

/-- C6: verification never begins before the install call has returned
success (in a connect-inject sub-case, the verify call appears in the trace
only after the install call and its success), and the forced pod deletion in
the cleanup-killed-pods sub-case appears in the trace only after the
registration poll has confirmed the initial registration. -/
theorem C6_ordering (installResult verifyResult : Except String Unit)
    (secure autoEncrypt : Bool) (w : CleanupWorld) (p : String) (g : Int) :
    (TestEvent.verifyCall ∈ testConnectInjectCase installResult verifyResult →
      ∃ rest, testConnectInjectCase installResult verifyResult =
        TestEvent.installCall :: TestEvent.installOk :: TestEvent.verifyCall :: rest) ∧
    (TestEvent.podDelete p g ∈ testCleanupKilledPods secure autoEncrypt w →
      ∃ tail, testCleanupKilledPods secure autoEncrypt w =
          TestEvent.clusterGen (cleanupHelmValues secure autoEncrypt) ::
            TestEvent.clusterCreate :: TestEvent.deployClient ::
            TestEvent.regPollStart :: TestEvent.regConfirmed :: tail ∧
        TestEvent.podDelete p g ∈ tail) := by
  constructor
  · intro hmem
    cases installResult with
    | error e => simp [testConnectInjectCase] at hmem
    | ok u => exact ⟨_, rfl⟩
  · intro hmem
    obtain ⟨h1, h2, h3, h4, hp, hg⟩ := cleanup_pod_delete_mem _ _ _ _ _ hmem
    subst hg
    have htrace : testCleanupKilledPods secure autoEncrypt w =
        TestEvent.clusterGen (cleanupHelmValues secure autoEncrypt) ::
          TestEvent.clusterCreate :: TestEvent.deployClient ::
          TestEvent.regPollStart :: TestEvent.regConfirmed ::
          TestEvent.podDelete p 0 ::
          (if w.deleteOk then
            TestEvent.deregPollStart ::
              (if retryRun w.deregBudget
                  (fun a => deregCheckAttempt (w.deregQuery a) p connectServices) then
                [TestEvent.deregConfirmed]
              else [TestEvent.testFailed "deregistration check exhausted retries"])
          else [TestEvent.testFailed "pod delete failed"]) := by
      rw [testCleanupKilledPods, if_pos h1, if_pos h2, if_pos h3, if_pos h4, hp]
    exact ⟨_, htrace, List.mem_cons_self _ _⟩

/-- Catalog outcomes for the successful cleanup run: before the deletion each
service has exactly one instance backed by pod1; afterwards the catalog is
empty. -/
def cwRegQuery : Nat → CatalogQuery := fun _ name => .ok [{ serviceID := name ++ "-pod1" }]

/-- Catalog outcomes after the forced deletion: no instances remain. -/
def cwDeregQuery : Nat → CatalogQuery := fun _ _ => .ok []

/-- A world in which every step of the cleanup sub-case succeeds. -/
def cw : CleanupWorld :=
  { createOk := true
    deployOk := true
    regQuery := cwRegQuery
    regBudget := 1
    listPodsOk := true
    pods := ["pod1"]
    deleteOk := true
    deregQuery := cwDeregQuery
    deregBudget := 1 }

/-- C6 witness: in the all-success runs, the verify call indeed sits right
after the successful install, and the forced deletion sits after the
registration confirmation. -/
theorem C6_ordering_witness :
    (∃ rest, testConnectInjectCase (.ok ()) (.ok ()) =
      TestEvent.installCall :: TestEvent.installOk :: TestEvent.verifyCall :: rest) ∧
    (∃ tail, testCleanupKilledPods true false cw =
        TestEvent.clusterGen (cleanupHelmValues true false) ::
          TestEvent.clusterCreate :: TestEvent.deployClient ::
          TestEvent.regPollStart :: TestEvent.regConfirmed :: tail ∧
      TestEvent.podDelete "pod1" 0 ∈ tail) :=
  ⟨(C6_ordering (.ok ()) (.ok ()) true false cw "pod1" 0).1 (by decide),
   (C6_ordering (.ok ()) (.ok ()) true false cw "pod1" 0).2 (by decide)⟩

/-- C9: whenever the cleanup sub-case reaches the forced deletion, the grace
period is zero and the deleted pod is the single listed pod, the registration
poll had confirmed convergence (an attempt is clean exactly when each service
has exactly one registered instance), and the deregistration confirmation is
reached exactly when the deletion succeeded and some attempt within the retry
budget sees, for both services, only instances whose ServiceID does not
contain the deleted pod's name. -/
theorem C9_cleanup_deregistration (secure autoEncrypt : Bool) (w : CleanupWorld)
    (p : String) (g : Int)
    (h : TestEvent.podDelete p g ∈ testCleanupKilledPods secure autoEncrypt w) :
    g = 0 ∧ w.pods = [p] ∧
    retryRun w.regBudget (fun a => regCheckAttempt (w.regQuery a) connectServices) = true ∧
    (∀ q : CatalogQuery, regCheckAttempt q connectServices = [] ↔
      ∀ name ∈ connectServices, ∃ instances, q name = .ok instances ∧
        instances.length = 1) ∧
    (TestEvent.deregConfirmed ∈ testCleanupKilledPods secure autoEncrypt w ↔
      w.deleteOk = true ∧ ∃ i, i < w.deregBudget ∧
        ∀ name ∈ connectServices, ∃ instances, w.deregQuery i name = .ok instances ∧
          ∀ inst ∈ instances, strContains inst.serviceID p = false) := by
  obtain ⟨h1, h2, h3, h4, hp, hg⟩ := cleanup_pod_delete_mem _ _ _ _ _ h
  refine ⟨hg, hp, h3, fun q => regCheckAttempt_eq_nil_iff q connectServices, ?_⟩
  have hiff : retryRun w.deregBudget
      (fun a => deregCheckAttempt (w.deregQuery a) p connectServices) = true ↔
      ∃ i, i < w.deregBudget ∧
        ∀ name ∈ connectServices, ∃ instances, w.deregQuery i name = .ok instances ∧
          ∀ inst ∈ instances, strContains inst.serviceID p = false := by
    rw [retryRun_eq_true_iff]
    exact exists_congr fun i =>
      and_congr_right fun _ => deregCheckAttempt_eq_nil_iff _ _ _
  have htrace : testCleanupKilledPods secure autoEncrypt w =
      TestEvent.clusterGen (cleanupHelmValues secure autoEncrypt) ::
        TestEvent.clusterCreate :: TestEvent.deployClient ::
        TestEvent.regPollStart :: TestEvent.regConfirmed ::
        TestEvent.podDelete p 0 ::
        (if w.deleteOk then
          TestEvent.deregPollStart ::
            (if retryRun w.deregBudget
                (fun a => deregCheckAttempt (w.deregQuery a) p connectServices) then
              [TestEvent.deregConfirmed]
            else [TestEvent.testFailed "deregistration check exhausted retries"])
        else [TestEvent.testFailed "pod delete failed"]) := by
    rw [testCleanupKilledPods, if_pos h1, if_pos h2, if_pos h3, if_pos h4, hp]
  rw [htrace]
  by_cases h5 : w.deleteOk = true
  · rw [if_pos h5]
    by_cases h6 : retryRun w.deregBudget
        (fun a => deregCheckAttempt (w.deregQuery a) p connectServices) = true
    · rw [if_pos h6]
      constructor
      · intro _
        exact ⟨h5, hiff.mp h6⟩
      · intro _
        simp
    · rw [if_neg h6]
      constructor
      · intro hmem
        simp at hmem
      · rintro ⟨-, hex⟩
        exact absurd (hiff.mpr hex) h6
  · rw [if_neg h5]
    constructor
    · intro hmem
      simp at hmem
    · rintro ⟨h5x, -⟩
      exact absurd h5x h5

/-- C9 witness: the all-success world reaches the deletion of pod1, confirms
its eventual deregistration, and satisfies the convergence equivalences. -/
theorem C9_cleanup_deregistration_witness :
    cw.pods = ["pod1"] ∧
    retryRun cw.regBudget (fun a => regCheckAttempt (cw.regQuery a) connectServices) = true :=
  ⟨(C9_cleanup_deregistration true false cw "pod1" 0 (by decide)).2.1,
   (C9_cleanup_deregistration true false cw "pod1" 0 (by decide)).2.2.1⟩

end ConsulK8s
